import Mathlib

/-!
Verification development for the home-automation rule and scene engine
(rule process manager, condition hierarchy, rule and scene managers, timer
and clock services).  The Python sources are shallowly embedded: objects
with mutable internal state become immutable values that operations return
updated copies of, dictionaries become association lists that preserve
insertion order, raised exceptions become values of an error monad
(Except String), and wall-clock time is threaded explicitly.  Asynchronous
callbacks wired by the rule manager are represented by small tags whose
invocation semantics mirror the corresponding handler bodies, including the
TypeError those bodies raise when they await the result of the synchronous
remove_condition methods; where a raise can follow mutation (a handler
dying inside a timer task, the known-name arm of uninstall_rule) the
operation returns the mutated state paired with the exception instead of a
bare error value.
-/

set_option maxRecDepth 10000

namespace AIHome

/-- Dynamically typed scalar attribute values (bool, integer, string, null).
Floating-point values do not occur in any claim under study and are omitted. -/
inductive PVal where
  | str : String → PVal
  | int : Int → PVal
  | bool : Bool → PVal
  | none : PVal
deriving DecidableEq, Repr

/-- Text of a value as produced by the Python str() conversion, as used in
identifier format strings. -/
def pvToPyStr : PVal → String
  | .str s => s
  | .int n => toString n
  | .bool b => if b then "True" else "False"
  | .none => "None"

/-- Numeric view: Python treats bool as an integer subtype in comparisons. -/
def pvNum : PVal → Option Int
  | .int n => some n
  | .bool b => some (if b then 1 else 0)
  | _ => Option.none

/-- Python equality on the embedded values: numeric values compare by value
(True equals 1), strings by content, None only to None; values of unrelated
types are unequal. -/
def pvEq (a b : PVal) : Bool :=
  match a, b with
  | .str x, .str y => x = y
  | .none, .none => true
  | .str _, _ | _, .str _ | .none, _ | _, .none => false
  | x, y =>
    match pvNum x, pvNum y with
    | some m, some n => m = n
    | _, _ => false

/-- Python ordering comparison; ordering a string against a number raises
TypeError, embedded as an error. -/
def pvLt (a b : PVal) : Except String Bool :=
  match a, b with
  | .str x, .str y => .ok (decide (x < y))
  | x, y =>
    match pvNum x, pvNum y with
    | some m, some n => .ok (decide (m < n))
    | _, _ => .error "TypeError: unsupported operand types for comparison"

def pvLe (a b : PVal) : Except String Bool :=
  match a, b with
  | .str x, .str y => .ok (decide (x ≤ y))
  | x, y =>
    match pvNum x, pvNum y with
    | some m, some n => .ok (decide (m ≤ n))
    | _, _ => .error "TypeError: unsupported operand types for comparison"

/-- Parse of a decimal integer literal in the way the Python int() constructor
accepts an optional sign followed by digits (surrounding whitespace and
underscores, which no claim exercises, are not modelled). -/
def pyParseInt (s : String) : Option Int :=
  let core (ds : List Char) : Option Nat :=
    if ds.isEmpty ∨ ¬ ds.all Char.isDigit then Option.none
    else some (ds.foldl (fun acc c => acc * 10 + (c.toNat - '0'.toNat)) 0)
  match s.toList with
  | '-' :: rest => (core rest).map (fun n => -(n : Int))
  | '+' :: rest => (core rest).map (fun n => (n : Int))
  | ds => (core ds).map (fun n => (n : Int))

/-- DeviceStateCondition cast of an incoming value to the type of the model
value (condition.py, method named with a leading underscore and cast_value):
None passes through; a bool target lowercases strings and tests membership in
the truthy word list, otherwise applies Python bool(); an int target parses
strings (falling back to the raw value on failure) and converts bools; a str
target applies str().  The target type is read off the model value. -/
def castValue (target v : PVal) : PVal :=
  match v with
  | .none => .none
  | _ =>
    match target with
    | .bool _ =>
      match v with
      | .str s => .bool (["true", "1", "yes", "on", "active", "open"].contains s.toLower)
      | .int n => .bool (decide (n ≠ 0))
      | .bool b => .bool b
      | .none => .none
    | .int _ =>
      match v with
      | .str s => match pyParseInt s with
        | some n => .int n
        | Option.none => v
      | .int n => .int n
      | .bool b => .int (if b then 1 else 0)
      | .none => .none
    | .str _ => .str (pvToPyStr v)
    | _ => v

/-- Local time of day at minute granularity (the engine truncates seconds and
microseconds before comparing). -/
structure TimeHM where
  hour : Nat
  minute : Nat
deriving DecidableEq, Repr

def pad2 (n : Nat) : String :=
  if n < 10 then "0" ++ toString n else toString n

/-- Text of a datetime.time value as produced by str(), used inside clock
identifiers (hours, minutes and the implicit zero seconds). -/
def pyTimeStr (t : TimeHM) : String :=
  pad2 t.hour ++ ":" ++ pad2 t.minute ++ ":00"

def timeLt (a b : TimeHM) : Bool :=
  a.hour < b.hour ∨ (a.hour = b.hour ∧ a.minute < b.minute)

/-- Association lists standing in for Python dictionaries (unique keys,
insertion order preserved). -/
def look {κ β : Type} [DecidableEq κ] : List (κ × β) → κ → Option β
  | [], _ => Option.none
  | (k, v) :: rest, key => if k = key then some v else look rest key

/-- Dictionary assignment: replaces the value in place for an existing key,
appends for a new key. -/
def setk {κ β : Type} [DecidableEq κ] (l : List (κ × β)) (k : κ) (v : β) : List (κ × β) :=
  if (look l k).isSome then l.map (fun p => if p.1 = k then (k, v) else p)
  else l ++ [(k, v)]

/-- Dictionary deletion (del d k). -/
def erasek {κ β : Type} [DecidableEq κ] (l : List (κ × β)) (k : κ) : List (κ × β) :=
  l.filter (fun p => p.1 ≠ k)

/-- Set add for a list standing in for a Python set. -/
def addUnique {α : Type} [DecidableEq α] (l : List α) (a : α) : List α :=
  if l.contains a then l else l ++ [a]

/-- Tags for the asynchronous action callbacks that the rule manager
attaches to conditions.  Invoking a tag replays the body of the
corresponding closure from manager.py:
plain is an opaque installed action used as a test probe (it only logs);
condTriggered is the closure built for a satisfied wait or until condition,
condTimeout the closure for a timed-out one (remaining actions, or a
synthetic Exit when built with exit_on_timeout), and ruleTriggered the
closure attached to a rule trigger.  Each of those three closures opens by
awaiting the synchronous remove_condition method of the restricted manager
handle: the removal executes, returns None, and awaiting None raises
TypeError, so the closure dies right after the removal and its call of the
action interpreter is never reached. -/
inductive ActTag where
  | plain : Nat → ActTag
  | condTriggered : ActTag
  | condTimeout : Bool → ActTag
  | ruleTriggered : String → ActTag
deriving DecidableEq, Repr

/-- Observable events recorded while the embedded engine runs, timestamped
with the ambient wall-clock second (an invocation of an opaque installed
action). -/
inductive Ev where
  | actionRun : Nat → String → Nat → Ev
deriving DecidableEq, Repr

/-- The TypeError text CPython raises when a coroutine awaits the None
returned by a plain synchronous call. -/
def awaitNoneTypeError : String := "TypeError: object NoneType can't be used in 'await' expression"

/-- Device event as delivered to the process manager (client.py DeviceEvent;
the string device id is converted with int() on arrival, so the embedding
holds it as a number directly). -/
structure DevEvent where
  deviceId : Nat
  attr : String
  value : PVal
deriving Repr

/-- The condition hierarchy (process.py Condition and its condition.py
subclasses).  Each constructor carries the model fields together with the
mutable internal state of the object:
device: DeviceStateCondition with its cached and previous attribute value;
boolc: BooleanStateCondition whose sub-condition table maps the identifier
key snapshot taken at construction to the sub-condition object and its last
reported truth (dict insertion order preserved);
timeOfDay: TimeOfDayStateCondition with the check times list computed in
its constructor;
trueCond: TrueCondition.
Every constructor also carries the settable action and timeout_action
slots, the trigger_always flag the process manager consults, and the
per-class instance counter value baked into the identifier. -/
inductive Cond where
  | device (deviceId : Nat) (attr : String) (op : String) (value : PVal)
      (duration : Option Nat) (timeout : Option Nat)
      (deviceValue prevValue : PVal)
      (action timeoutAction : Option ActTag) (triggerAlways : Bool) (instNum : Nat)
  | boolc (op : String) (subs : List (String × Cond × Bool))
      (duration : Option Nat) (timeout : Option Nat)
      (action timeoutAction : Option ActTag) (triggerAlways : Bool) (instNum : Nat)
  | timeOfDay (op : String) (hour minute : Nat) (checkTimes : List TimeHM)
      (action timeoutAction : Option ActTag) (triggerAlways : Bool) (instNum : Nat)
  | trueCond (timeout : Option Nat)
      (action timeoutAction : Option ActTag) (triggerAlways : Bool) (instNum : Nat)
deriving Repr

namespace Cond

/-- The unique identifier property of each condition class.  The boolean
combinator joins the key snapshots of its sub-condition table with the
operator, as the source joins the dict keys. -/
def identifier : Cond → String
  | device dId attr op v _ _ _ _ _ _ _ n =>
      "hubitat(" ++ toString dId ++ "-" ++ attr ++ " " ++ op ++ " " ++ pvToPyStr v
        ++ ")#" ++ toString n
  | boolc op subs _ _ _ _ _ n =>
      "(" ++ String.intercalate (" " ++ op ++ " ") (subs.map (·.1)) ++ ")#" ++ toString n
  | timeOfDay op h m _ _ _ _ n =>
      "time_of_day(" ++ op ++ " " ++ pad2 h ++ ":" ++ pad2 m ++ ")#" ++ toString n
  | trueCond _ _ _ _ n => "true()#" ++ toString n

/-- The devices property: only DeviceStateCondition overrides the empty
default (TimeOfDayStateCondition deliberately does not). -/
def devices : Cond → List (Nat × List String)
  | device dId attr _ _ _ _ _ _ _ _ _ _ => [(dId, [attr])]
  | _ => []

/-- The sub-condition table of a boolean combinator; empty for the others. -/
def subsList : Cond → List (String × Cond × Bool)
  | boolc _ subs _ _ _ _ _ _ => subs
  | _ => []

/-- The conditions property: the sub-condition objects in table order. -/
def conditionsConds (c : Cond) : List Cond :=
  c.subsList.map (fun p => p.2.1)

/-- The duration property.  DeviceStateCondition and BooleanStateCondition
return their model duration; TrueCondition returns the total seconds of its
stored timeout (this is how a pure delay is realised); the base default is
None. -/
def durationProp : Cond → Option Nat
  | device _ _ _ _ dur _ _ _ _ _ _ _ => dur
  | boolc _ _ dur _ _ _ _ _ => dur
  | trueCond tmo _ _ _ _ => tmo
  | _ => Option.none

/-- The timeout property.  Only DeviceStateCondition and
BooleanStateCondition override the None default; TrueCondition in
particular inherits None even though it stores a timeout. -/
def timeoutProp : Cond → Option Nat
  | device _ _ _ _ _ tmo _ _ _ _ _ _ => tmo
  | boolc _ _ _ tmo _ _ _ _ => tmo
  | _ => Option.none

def action : Cond → Option ActTag
  | device _ _ _ _ _ _ _ _ a _ _ _ => a
  | boolc _ _ _ _ a _ _ _ => a
  | timeOfDay _ _ _ _ a _ _ _ => a
  | trueCond _ a _ _ _ => a

def timeoutAction : Cond → Option ActTag
  | device _ _ _ _ _ _ _ _ _ ta _ _ => ta
  | boolc _ _ _ _ _ ta _ _ => ta
  | timeOfDay _ _ _ _ _ ta _ _ => ta
  | trueCond _ _ ta _ _ => ta

def triggerAlways : Cond → Bool
  | device _ _ _ _ _ _ _ _ _ _ tA _ => tA
  | boolc _ _ _ _ _ _ tA _ => tA
  | timeOfDay _ _ _ _ _ _ tA _ => tA
  | trueCond _ _ _ tA _ => tA

/-- The check_times property: the list computed by the TimeOfDayStateCondition
constructor; the base default is an empty list (never None, so the process
manager's is-not-None test always passes). -/
def checkTimes : Cond → List TimeHM
  | timeOfDay _ _ _ ct _ _ _ _ => ct
  | _ => []

def withAction (a : Option ActTag) : Cond → Cond
  | device dId attr op v dur tmo dv pv _ ta tA n => device dId attr op v dur tmo dv pv a ta tA n
  | boolc op subs dur tmo _ ta tA n => boolc op subs dur tmo a ta tA n
  | timeOfDay op h m ct _ ta tA n => timeOfDay op h m ct a ta tA n
  | trueCond tmo _ ta tA n => trueCond tmo a ta tA n

def withTimeoutAction (ta : Option ActTag) : Cond → Cond
  | device dId attr op v dur tmo dv pv a _ tA n => device dId attr op v dur tmo dv pv a ta tA n
  | boolc op subs dur tmo a _ tA n => boolc op subs dur tmo a ta tA n
  | timeOfDay op h m ct a _ tA n => timeOfDay op h m ct a ta tA n
  | trueCond tmo a _ tA n => trueCond tmo a ta tA n

/-- The evaluate method of each condition class.  The wall-clock time of day
is passed in for the time-of-day comparison (datetime.now truncated to the
minute in the source); unknown operators raise ValueError and the not
combinator indexes the first sub-condition state (IndexError on an empty
table, which the constructor arity check normally prevents). -/
def evaluate (now : TimeHM) : Cond → Except String Bool
  | device _ _ op v _ _ dv pv _ _ _ _ =>
      match op with
      | "=" => .ok (pvEq dv v)
      | "!=" => .ok (! pvEq dv v)
      | ">" => pvLt v dv
      | ">=" => pvLe v dv
      | "<" => pvLt dv v
      | "<=" => pvLe dv v
      | "changed" => .ok (! pvEq pv dv)
      | _ => .error ("ValueError: Unknown operator: " ++ op)
  | boolc op subs _ _ _ _ _ _ =>
      match op with
      | "and" => .ok (subs.all (fun p => p.2.2))
      | "or" => .ok (subs.any (fun p => p.2.2))
      | "not" =>
        match subs with
        | [] => .error "IndexError: list index out of range"
        | p :: _ => .ok (! p.2.2)
      | _ => .error ("ValueError: Unknown operator: " ++ op)
  | timeOfDay op h m _ _ _ _ _ =>
      match op with
      | "is" => .ok (decide (now = TimeHM.mk h m))
      | "before" => .ok (timeLt now (TimeHM.mk h m))
      | "after" => .ok (! timeLt now (TimeHM.mk h m))
      | _ => .error ("ValueError: Unknown operator: " ++ op)
  | trueCond _ _ _ _ _ => .ok true

/-- Helper for the initialize method of the boolean combinator: for each
reported sub-condition state the table entry under that identifier is
updated (a missing key raises KeyError, as indexing does in the source). -/
def updateSubStates : List (String × Bool) → List (String × Cond × Bool) →
    Except String (List (String × Cond × Bool))
  | [], subs => .ok subs
  | (cid, b) :: rest, subs =>
    match look subs cid with
    | Option.none => .error ("KeyError: " ++ cid)
    | some (c0, _) => updateSubStates rest (setk subs cid (c0, b))

/-- The initialize method: seeds internal state from the engine snapshot and
returns the (updated object, initial truth) pair.  DeviceStateCondition
caches the cast attribute value as both current and previous value and
evaluates; BooleanStateCondition folds the reported sub-condition states
into its table and evaluates; TimeOfDayStateCondition does not override the
base method, so its initial truth is always False; TrueCondition returns
True. -/
def initState (now : TimeHM) (attrs : List (Nat × List (String × PVal)))
    (condStates : List (String × Bool)) : Cond → Except String (Cond × Bool)
  | device dId attr op v dur tmo _ _ a ta tA n => do
      let some devAttrs := look attrs dId | .error ("KeyError: " ++ toString dId)
      let some raw := look devAttrs attr | .error ("KeyError: " ++ attr)
      let newVal := castValue v raw
      let c := device dId attr op v dur tmo newVal newVal a ta tA n
      let b ← evaluate now c
      .ok (c, b)
  | boolc op subs dur tmo a ta tA n => do
      let subs ← updateSubStates condStates subs
      let c := boolc op subs dur tmo a ta tA n
      let b ← evaluate now c
      .ok (c, b)
  | timeOfDay op h m ct a ta tA n => .ok (timeOfDay op h m ct a ta tA n, false)
  | trueCond tmo a ta tA n => .ok (trueCond tmo a ta tA n, true)

/-- The on_device_event method: DeviceStateCondition shifts its cached value
into the previous slot and caches the cast event value; the base method is a
no-op for the other classes. -/
def onDevEvent (ev : DevEvent) : Cond → Cond
  | device dId attr op v dur tmo dv _ a ta tA n =>
      device dId attr op v dur tmo (castValue v ev.value) dv a ta tA n
  | c => c

/-- The on_condition_event method: the boolean combinator records the new
truth of a sub-condition present in its table (looked up by identifier);
the base method is a no-op. -/
def onCondEvent (childId : String) (triggered : Bool) : Cond → Cond
  | boolc op subs dur tmo a ta tA n =>
      match look subs childId with
      | some (c0, _) => boolc op (setk subs childId (c0, triggered)) dur tmo a ta tA n
      | Option.none => boolc op subs dur tmo a ta tA n
  | c => c

end Cond

/-- The check times computed by the TimeOfDayStateCondition constructor:
the model time always, and for the is operator also the following minute
(wrapping 59 to the next hour modulo 24) so the condition can fall back to
false. -/
def timeOfDayCheckTimes (op : String) (hour minute : Nat) : List TimeHM :=
  let base := [TimeHM.mk hour minute]
  if op = "is" then
    if minute = 59 then base ++ [TimeHM.mk ((hour + 1) % 24) 0]
    else base ++ [TimeHM.mk hour (minute + 1)]
  else base

/-- TimeOfDayStateCondition construction from its model. -/
def mkTimeOfDay (op : String) (hour minute : Nat) (instNum : Nat) : Cond :=
  .timeOfDay op hour minute (timeOfDayCheckTimes op hour minute)
    Option.none Option.none false instNum

/-- TrueCondition construction with an optional stored timeout. -/
def mkTrueCondition (timeout : Option Nat) (instNum : Nat) : Cond :=
  .trueCond timeout Option.none Option.none false instNum

/-- Callbacks held by pending one-shot timers (closures over the condition
object in the source). -/
inductive TimerCB where
  | condDuration : Cond → TimerCB
  | condTimeout : Cond → TimerCB

/-- Callback held by a daily check-time clock. -/
inductive ClockCB where
  | condCheckTime : Cond → ClockCB

/-- State of the rule process manager together with its timer and clock
services and a log of its outward effects: conditions maps identifier to
(object, last recorded truth); conditionDeps maps a sub-condition identifier
to the identifiers of its parents; trackedDevices maps device id to a map
from attribute name to the identifiers of observing conditions;
latestAttributes caches attribute values; timers and clocks hold the pending
entries of the two services; subscribeLog and unsubscribeLog record hub
subscription calls; log records action invocations. -/
structure RPMState where
  conditions : List (String × Cond × Bool)
  conditionDeps : List (String × List String)
  trackedDevices : List (Nat × List (String × List String))
  latestAttributes : List (Nat × List (String × PVal))
  timers : List (String × Nat × TimerCB)
  clocks : List (String × TimeHM × ClockCB)
  subscribeLog : List (Nat × List String)
  unsubscribeLog : List Nat
  log : List Ev

def RPMState.empty : RPMState :=
  { conditions := [], conditionDeps := [], trackedDevices := [], latestAttributes := []
    timers := [], clocks := [], subscribeLog := [], unsubscribeLog := [], log := [] }

def addLog (st : RPMState) (e : Ev) : RPMState := {st with log := st.log ++ [e]}

/-- External inputs threaded through a run: the hub adapter snapshot used by
get_attribute, the current local time of day (minute truncated) and the
ambient wall-clock second used to timestamp the log. -/
structure Env where
  hub : Nat → String → PVal
  nowHM : TimeHM
  nowAbs : Nat

/-- TimerService.start_timer: an existing timer under the same id is
cancelled first (replace semantics), then the new entry is stored. -/
def startTimer (st : RPMState) (timerId : String) (dur : Nat) (cb : TimerCB) : RPMState :=
  let st := if (look st.timers timerId).isSome then {st with timers := erasek st.timers timerId} else st
  {st with timers := st.timers ++ [(timerId, dur, cb)]}

/-- TimerService.cancel_timer: removes the entry if present and reports
whether it existed. -/
def cancelTimer (st : RPMState) (timerId : String) : RPMState × Bool :=
  if (look st.timers timerId).isSome then ({st with timers := erasek st.timers timerId}, true)
  else (st, false)

/-- ClockService.start_clock: raises ValueError when the id already exists,
otherwise stores the entry. -/
def startClock (st : RPMState) (clockId : String) (t : TimeHM) (cb : ClockCB) :
    Except String RPMState :=
  if (look st.clocks clockId).isSome then
    .error ("ValueError: Clock trigger with ID " ++ clockId ++ " already exists")
  else .ok {st with clocks := st.clocks ++ [(clockId, t, cb)]}

/-- ClockService.cancel_clock. -/
def cancelClock (st : RPMState) (clockId : String) : RPMState × Bool :=
  if (look st.clocks clockId).isSome then ({st with clocks := erasek st.clocks clockId}, true)
  else (st, false)

def timerDurName (cid : String) : String := "condition_dur(" ++ cid ++ ")"

def timerToName (cid : String) : String := "condition_to(" ++ cid ++ ")"

def clockCheckName (cid : String) (t : TimeHM) : String :=
  "time_check(" ++ cid ++ "-" ++ pyTimeStr t ++ ")"

/-- check_condition_state: plain dictionary indexing, so a condition that is
not installed raises KeyError. -/
def checkConditionState (st : RPMState) (c : Cond) : Except String Bool :=
  match look st.conditions c.identifier with
  | Option.none => .error ("KeyError: " ++ c.identifier)
  | some (_, b) => .ok b

/-- One attribute step of the device-tracking teardown in remove_condition:
discard the identifier from the observer set; when the set empties,
unsubscribe the device and delete the attribute from both nested maps,
dropping a device entry that becomes empty.  The nested dictionary indexing
raises KeyError when the device or attribute is not tracked. -/
def removeTrackedAttr (cid : String) (deviceId : Nat) (attr : String) (st : RPMState) :
    Except String RPMState := do
  let some devMap := look st.trackedDevices deviceId
    | .error ("KeyError: " ++ toString deviceId)
  let some condSet := look devMap attr | .error ("KeyError: " ++ attr)
  let condSet := condSet.filter (fun x => x ≠ cid)
  if condSet.isEmpty then do
    let st := {st with unsubscribeLog := st.unsubscribeLog ++ [deviceId]}
    let devMap := erasek devMap attr
    let some latMap := look st.latestAttributes deviceId
      | .error ("KeyError: " ++ toString deviceId)
    let some _ := look latMap attr | .error ("KeyError: " ++ attr)
    let latMap := erasek latMap attr
    let tracked := if devMap.isEmpty then erasek st.trackedDevices deviceId
                   else setk st.trackedDevices deviceId devMap
    let latest := if latMap.isEmpty then erasek st.latestAttributes deviceId
                  else setk st.latestAttributes deviceId latMap
    .ok {st with trackedDevices := tracked, latestAttributes := latest}
  else
    .ok {st with trackedDevices := setk st.trackedDevices deviceId (setk devMap attr condSet)}

def removeAttrsGo (cid : String) (deviceId : Nat) :
    List String → RPMState → Except String RPMState
  | [], st => .ok st
  | attr :: rest, st => do
      let st ← removeTrackedAttr cid deviceId attr st
      removeAttrsGo cid deviceId rest st

def removeDevsGo (cid : String) : List (Nat × List String) → RPMState → Except String RPMState
  | [], st => .ok st
  | (deviceId, attrs) :: rest, st => do
      let st ← removeAttrsGo cid deviceId attrs st
      removeDevsGo cid rest st

def cancelClocksFor (cid : String) : List TimeHM → RPMState → RPMState
  | [], st => st
  | t :: rest, st => cancelClocksFor cid rest (cancelClock st (clockCheckName cid t)).1

def delCondEntry (st : RPMState) (cid : String) : RPMState :=
  if (look st.conditions cid).isSome then {st with conditions := erasek st.conditions cid} else st

def delDeps (st : RPMState) (cid : String) : RPMState :=
  if (look st.conditionDeps cid).isSome then {st with conditionDeps := erasek st.conditionDeps cid}
  else st

/-- The non-recursive body of remove_condition, in source order: cancel the
timeout and duration timers, cancel the check-time clocks, drop the
condition from tracking if present, detach every tracked device attribute,
and drop the reverse dependency entry keyed by this condition. -/
def removeMain (c : Cond) (st : RPMState) : Except String RPMState := do
  let st := (cancelTimer st (timerToName c.identifier)).1
  let st := (cancelTimer st (timerDurName c.identifier)).1
  let st := cancelClocksFor c.identifier c.checkTimes st
  let st := delCondEntry st c.identifier
  let st ← removeDevsGo c.identifier c.devices st
  .ok (delDeps st c.identifier)

/-- The recursive tail of remove_condition over the sub-condition table: a
sub-condition that is still installed (membership in the conditions table is
the only check the source performs before recursing) is removed through the
supplied removal function. -/
def removeSubs (rc : Cond → RPMState → Except String RPMState) :
    List (String × Cond × Bool) → RPMState → Except String RPMState
  | [], st => .ok st
  | (_, sc, _) :: rest, st => do
      let st ← if (look st.conditions sc.identifier).isSome then rc sc st else .ok st
      removeSubs rc rest st

/-- remove_condition: the main teardown followed by the recursive removal of
every sub-condition that is still installed.  Fuelled against unbounded
recursion through the object graph (the conditions property is empty for
every class but the boolean combinator, so the loop is vacuous for the
others). -/
def removeCondition : Nat → Cond → RPMState → Except String RPMState
  | 0, _, _ => .error "RecursionError: maximum recursion depth exceeded"
  | Nat.succ fuel, c, st => do
      let st ← removeMain c st
      removeSubs (removeCondition fuel) c.subsList st

/-- Invocation of an attached action callback; see the ActTag documentation.
The result is the state as mutated by the time the handler finished or
raised, paired with the exception it raised, if any (Python mutations
performed before a raise persist).  The opaque probe only logs and returns.
Each of the three rule-manager closures opens with
await cm.remove_condition(condition): the synchronous removal executes in
full, returns None, and the await of None raises TypeError, so the closure
dies with the condition removed and never reaches invoke_actions — neither
the remaining actions nor an Exit are ever interpreted from these closures.
(Should the removal itself raise, the embedding pairs the unmutated input
state with that error; no theorem below relies on the state after such an
internal failure.) -/
def invokeAction (env : Env) (fuel : Nat) (tag : ActTag) (c : Cond) (st : RPMState) :
    RPMState × Option String :=
  match tag with
  | .plain n => (addLog st (.actionRun n c.identifier env.nowAbs), Option.none)
  | .condTriggered =>
      match removeCondition fuel c st with
      | .ok st' => (st', some awaitNoneTypeError)
      | .error e => (st, some e)
  | .condTimeout _ =>
      match removeCondition fuel c st with
      | .ok st' => (st', some awaitNoneTypeError)
      | .error e => (st, some e)
  | .ruleTriggered _ =>
      match removeCondition fuel c st with
      | .ok st' => (st', some awaitNoneTypeError)
      | .error e => (st, some e)

/-- Inner loop of the device-attribute tracking step of add_condition: a new
attribute gets an empty observer set and is recorded in the new-attributes
accumulator (indexing that accumulator raises KeyError when the device was
already tracked, exactly as the source does); either way the condition
identifier is added to the observer set. -/
def trackAttrsGo (cid : String) (deviceId : Nat) :
    List String → List (Nat × List String) → RPMState →
    Except String (List (Nat × List String) × RPMState)
  | [], acc, st => .ok (acc, st)
  | attr :: rest, acc, st => do
      let some devMap := look st.trackedDevices deviceId
        | .error ("KeyError: " ++ toString deviceId)
      let (devMap, acc) ←
        if (look devMap attr).isSome then Except.ok (devMap, acc)
        else
          match look acc deviceId with
          | Option.none => Except.error ("KeyError: " ++ toString deviceId)
          | some newSet =>
              Except.ok (setk devMap attr ([] : List String),
                setk acc deviceId (addUnique newSet attr))
      let some condSet := look devMap attr | .error ("KeyError: " ++ attr)
      let devMap := setk devMap attr (addUnique condSet cid)
      let st := {st with trackedDevices := setk st.trackedDevices deviceId devMap}
      trackAttrsGo cid deviceId rest acc st

def trackDevsGo (cid : String) :
    List (Nat × List String) → List (Nat × List String) → RPMState →
    Except String (List (Nat × List String) × RPMState)
  | [], acc, st => .ok (acc, st)
  | (deviceId, attrs) :: rest, acc, st => do
      let (st, acc) :=
        if (look st.trackedDevices deviceId).isSome then (st, acc)
        else ({st with trackedDevices := setk st.trackedDevices deviceId []},
          acc ++ [(deviceId, [])])
      let (acc, st) ← trackAttrsGo cid deviceId attrs acc st
      trackDevsGo cid rest acc st

/-- The tracking step of add_condition; returns the device attributes newly
observed by this installation. -/
def trackDeviceAttributes (c : Cond) (st : RPMState) :
    Except String (List (Nat × List String) × RPMState) :=
  trackDevsGo c.identifier c.devices [] st

def fetchAttrsGo (env : Env) (deviceId : Nat) : List String → RPMState → RPMState
  | [], st => st
  | attr :: rest, st =>
      let st := if (look st.latestAttributes deviceId).isSome then st
                else {st with latestAttributes := setk st.latestAttributes deviceId []}
      let latMap := (look st.latestAttributes deviceId).getD []
      let latest := setk st.latestAttributes deviceId (setk latMap attr (env.hub deviceId attr))
      let st := {st with latestAttributes := latest}
      fetchAttrsGo env deviceId rest st

/-- The snapshot step of add_condition: every newly tracked attribute is read
from the hub adapter into the cache. -/
def fetchNewAttributes (env : Env) : List (Nat × List String) → RPMState → RPMState
  | [], st => st
  | (deviceId, attrs) :: rest, st => fetchNewAttributes env rest (fetchAttrsGo env deviceId attrs st)

def prepAttrsGo (deviceId : Nat) (st : RPMState) :
    List String → List (String × PVal) → Except String (List (String × PVal))
  | [], acc => .ok acc
  | attr :: rest, acc => do
      let some latMap := look st.latestAttributes deviceId
        | .error ("KeyError: " ++ toString deviceId)
      let some v := look latMap attr | .error ("KeyError: " ++ attr)
      prepAttrsGo deviceId st rest (setk acc attr v)

def prepDevsGo (st : RPMState) :
    List (Nat × List String) → List (Nat × List (String × PVal)) →
    Except String (List (Nat × List (String × PVal)))
  | [], acc => .ok acc
  | (deviceId, attrs) :: rest, acc => do
      let m ← prepAttrsGo deviceId st attrs []
      prepDevsGo st rest (setk acc deviceId m)

/-- The initialization-snapshot step of add_condition: the cached values of
the attributes the condition observes. -/
def prepareInitAttributes (c : Cond) (st : RPMState) :
    Except String (List (Nat × List (String × PVal))) :=
  prepDevsGo st c.devices []

def subscribeNew : List (Nat × List String) → RPMState → RPMState
  | [], st => st
  | (deviceId, attrs) :: rest, st =>
      subscribeNew rest {st with subscribeLog := st.subscribeLog ++ [(deviceId, attrs)]}

def startClocksGo (c : Cond) : List TimeHM → RPMState → Except String RPMState
  | [], st => .ok st
  | t :: rest, st => do
      let st ← startClock st (clockCheckName c.identifier t) t (.condCheckTime c)
      startClocksGo c rest st

/-- The timer-arming tail of add_condition, in source order: a timeout timer
when the timeout is truthy and a timeout action is attached, otherwise (the
check_times list being never None) one clock per check time; finally a
duration timer when the freshly computed state is already true and the
condition has a duration.  No action is invoked here. -/
def startConditionTimers (c : Cond) (state : Bool) (st : RPMState) : Except String RPMState := do
  let st ←
    if (match c.timeoutProp with
        | some t => decide (t ≠ 0)
        | Option.none => false) && c.timeoutAction.isSome then
      Except.ok (startTimer st (timerToName c.identifier) (c.timeoutProp.getD 0) (.condTimeout c))
    else startClocksGo c c.checkTimes st
  match state, c.durationProp with
  | true, some d => .ok (startTimer st (timerDurName c.identifier) d (.condDuration c))
  | _, _ => .ok st

/-- The sub-condition pass of add_condition: a sub-condition that is not yet
installed first gets a reverse dependency edge to this parent and is then
installed recursively (through the supplied installation function); either
way its recorded truth seeds the parent initialization map.  A sub-condition
that is already installed gets no new dependency edge. -/
def initSubsGo (addC : Cond → RPMState → Except String RPMState) (parentId : String) :
    List (String × Cond × Bool) → List (String × Bool) → RPMState →
    Except String (List (String × Bool) × RPMState)
  | [], acc, st => .ok (acc, st)
  | (_, sc, _) :: rest, acc, st => do
      let st ←
        if (look st.conditions sc.identifier).isSome then Except.ok st
        else do
          let deps := (look st.conditionDeps sc.identifier).getD []
          let deps := setk st.conditionDeps sc.identifier (addUnique deps parentId)
          let st := {st with conditionDeps := deps}
          addC sc st
      let some (_, b) := look st.conditions sc.identifier | .error ("KeyError: " ++ sc.identifier)
      initSubsGo addC parentId rest (acc ++ [(sc.identifier, b)]) st

/-- add_condition, fuelled against unbounded recursion through sub-condition
installation: track and snapshot new device attributes, recursively install
sub-conditions, initialize the condition from the snapshots, record its
initial truth, subscribe to the new attributes, and arm timers.  The source
never invokes the installed action here. -/
def addCondition (env : Env) : Nat → Cond → RPMState → Except String RPMState
  | 0, _, _ => .error "RecursionError: maximum recursion depth exceeded"
  | Nat.succ fuel, c, st => do
      let (newAttrs, st) ← trackDeviceAttributes c st
      let st := fetchNewAttributes env newAttrs st
      let (initCondStates, st) ← initSubsGo (addCondition env fuel) c.identifier c.subsList [] st
      let initAttrs ← prepareInitAttributes c st
      let (c, state) ← Cond.initState env.nowHM initAttrs initCondStates c
      let st := {st with conditions := setk st.conditions c.identifier (c, state)}
      let st := subscribeNew newAttrs st
      startConditionTimers c state st

def notifyParents (childId : String) (newState : Bool) :
    List String → RPMState → Except String RPMState
  | [], st => .ok st
  | pid :: rest, st => do
      let some (pc, pb) := look st.conditions pid | .error ("KeyError: " ++ pid)
      let st := {st with conditions := setk st.conditions pid (pc.onCondEvent childId newState, pb)}
      notifyParents childId newState rest st

/-- The breadth-first propagation of a state update, fuelled because the
source traverses every edge every time with no visited set (only the touched
accumulator is deduplicated).  For each popped condition: record it as
touched, re-evaluate it, store the new truth if it changed, notify every
parent and append the parents to the queue. -/
def propagate (env : Env) : Nat → List String → List String → RPMState →
    Except String (RPMState × List String)
  | 0, _, _, _ => .error "PropagationFuelExhausted"
  | Nat.succ _, [], touched, st => .ok (st, touched)
  | Nat.succ fuel, cid :: work, touched, st => do
      let touched := if touched.contains cid then touched else touched ++ [cid]
      let some (cur, curState) := look st.conditions cid | .error ("KeyError: " ++ cid)
      let newState ← cur.evaluate env.nowHM
      let st := if newState ≠ curState then
          {st with conditions := setk st.conditions cid (cur, newState)}
        else st
      let parents := (look st.conditionDeps cid).getD []
      let st ← notifyParents cur.identifier newState parents st
      propagate env fuel (work ++ parents) touched st

def materializeConds : List String → RPMState → Except String (List Cond)
  | [], _ => .ok []
  | cid :: rest, st => do
      let some (c, _) := look st.conditions cid | .error ("KeyError: " ++ cid)
      let cs ← materializeConds rest st
      .ok (c :: cs)

/-- The action phase of a propagation run, over the touched conditions that
carry an action.  With a duration set, a rising edge arms the duration timer
and a falling edge cancels it.  Then, on a rising edge or whenever the
condition is true with trigger_always, both timers are cancelled and the
action is invoked immediately: the immediate-trigger test does not exclude
conditions with a duration.  An exception raised by the invoked handler
propagates out of the propagation run and the remaining touched conditions
are not processed (the error value of this embedding does not retain the
mutations the handler performed before raising; no theorem below relies on
the state after such an escape). -/
def actionPhase (env : Env) (fuel : Nat) :
    List Cond → List (String × Bool) → RPMState → Except String RPMState
  | [], _, st => .ok st
  | c :: rest, previous, st => do
      let some (_, curr) := look st.conditions c.identifier | .error ("KeyError: " ++ c.identifier)
      let some prev := look previous c.identifier | .error ("KeyError: " ++ c.identifier)
      let st :=
        match c.durationProp with
        | some d =>
          if curr && !prev then startTimer st (timerDurName c.identifier) d (.condDuration c)
          else if !curr && prev then (cancelTimer st (timerDurName c.identifier)).1
          else st
        | Option.none => st
      let st ←
        if (curr && !prev) || (curr && c.triggerAlways) then do
          let st := (cancelTimer st (timerDurName c.identifier)).1
          let st := (cancelTimer st (timerToName c.identifier)).1
          match c.action with
          | some tag =>
            match invokeAction env fuel tag c st with
            | (st, Option.none) => Except.ok st
            | (_, some e) => Except.error e
          | Option.none => Except.ok st
        else Except.ok st
      actionPhase env fuel rest previous st

/-- process_condition_change: snapshot the previous truths, propagate, then
run the action phase over the touched conditions that have an action. -/
def processConditionChange (env : Env) (fuel : Nat) (impacted : List String) (st : RPMState) :
    Except String RPMState := do
  let previous := st.conditions.map (fun p => (p.1, p.2.2))
  let (st, touchedIds) ← propagate env fuel impacted [] st
  let touched ← materializeConds touchedIds st
  actionPhase env fuel (touched.filter (fun c => c.action.isSome)) previous st

def notifyImpacted (ev : DevEvent) : List String → RPMState → Except String RPMState
  | [], st => .ok st
  | cid :: rest, st => do
      let some (c, b) := look st.conditions cid | .error ("KeyError: " ++ cid)
      let st := {st with conditions := setk st.conditions cid (c.onDevEvent ev, b)}
      notifyImpacted ev rest st

/-- The device-event entry point: update the cached attribute value, notify
each directly impacted condition, then run a propagation over them. -/
def onDeviceEventRPM (env : Env) (fuel : Nat) (ev : DevEvent) (st : RPMState) :
    Except String RPMState := do
  let some latMap := look st.latestAttributes ev.deviceId
    | .error ("KeyError: " ++ toString ev.deviceId)
  let latest := setk st.latestAttributes ev.deviceId (setk latMap ev.attr ev.value)
  let st := {st with latestAttributes := latest}
  let some devMap := look st.trackedDevices ev.deviceId
    | .error ("KeyError: " ++ toString ev.deviceId)
  let some condIds := look devMap ev.attr | .error ("KeyError: " ++ ev.attr)
  let st ← notifyImpacted ev condIds st
  processConditionChange env fuel condIds st

/-- Expiry of a pending timer: the callback checks that the captured
condition is still installed and still has the relevant action slot before
invoking it; the finally block of the timer task then removes the service
entry if still present, whether or not the callback raised, and an exception
from the callback dies with the timer task (asyncio swallows it at the task
boundary).  The result pairs the state, mutations from the handler included,
with the exception the task died with, if any. -/
def fireTimer (env : Env) (fuel : Nat) (timerId : String) (st : RPMState) :
    RPMState × Option String :=
  match look st.timers timerId with
  | Option.none => (st, Option.none)
  | some (_, cb) =>
      let r :=
        match cb with
        | .condDuration c =>
          match look st.conditions c.identifier, c.action with
          | some _, some tag => invokeAction env fuel tag c st
          | _, _ => (st, Option.none)
        | .condTimeout c =>
          match look st.conditions c.identifier, c.timeoutAction with
          | some _, some tag => invokeAction env fuel tag c st
          | _, _ => (st, Option.none)
      let st := r.1
      (if (look st.timers timerId).isSome then {st with timers := erasek st.timers timerId}
       else st, r.2)

/-- A check-time clock tick: if the captured condition is still installed, a
propagation run starts from it; the clock entry persists (it re-arms itself
daily). -/
def fireClock (env : Env) (fuel : Nat) (clockId : String) (st : RPMState) :
    Except String RPMState :=
  match look st.clocks clockId with
  | Option.none => .ok st
  | some (_, .condCheckTime c) =>
      if (look st.conditions c.identifier).isSome then
        processConditionChange env fuel [c.identifier] st
      else .ok st

/-- Declarative condition models (rules/model.py).  The unknown constructor
stands for a trigger value outside the three modelled variants, the
possibility the defensive match arms in the source guard against. -/
inductive StateCondM where
  | device (deviceId : Nat) (attr : String) (op : String) (value : PVal)
      (duration : Option Nat)
  | boolean (op : String) (conditions : List StateCondM) (duration : Option Nat)
  | timeOfDay (op : String) (hour minute : Nat)
  | unknown (desc : String)
deriving Repr

/-- Declarative action models (rules/model.py ModelAction variants). -/
inductive ActionM where
  | deviceControl (deviceId : Nat) (command : String) (arguments : List PVal)
  | ifThenElse (ifCondition : StateCondM) (thenActions : List ActionM)
      (elseActions : Option (List ActionM))
  | scene (sceneName : String)
  | untilA (condition : StateCondM) (timeout : Option Nat)
      (untilActions : List ActionM) (timeoutActions : Option (List ActionM))
  | waitA (condition : Option StateCondM) (timeout : Option Nat) (endOnTimeout : Bool)
deriving Repr

/-- Rule model: name, description, trigger and action list. -/
structure RuleM where
  name : String
  description : String
  trigger : StateCondM
  actions : List ActionM
deriving Repr

/-- The sub-condition construction loop of the boolean combinator
constructor: each sub-model is compiled (through the supplied compilation
function) without a timeout and keyed by its identifier with an initial
false state. -/
def buildSubs (cfm : StateCondM → Option Nat → Nat → Except String (Cond × Nat)) :
    List StateCondM → List (String × Cond × Bool) → Nat →
    Except String (List (String × Cond × Bool) × Nat)
  | [], acc, ctr => .ok (acc, ctr)
  | m :: rest, acc, ctr => do
      let (c, ctr) ← cfm m Option.none ctr
      buildSubs cfm rest (setk acc c.identifier (c, false)) ctr

/-- condition_for_model (and the identical constructor dispatch in
install_rule): builds the condition object for a model, threading an
instance counter in place of the per-class counters of the source (the
counters only make identifiers unique).  A boolean model builds each
sub-condition with condition_for_model without a timeout, keys the table by
the identifiers and then enforces that the not operator has exactly one
sub-condition; a time-of-day model ignores the timeout argument, as its
class takes none; an unknown variant raises ValueError.  Fuelled against
unbounded model nesting. -/
def conditionForModel : Nat → StateCondM → Option Nat → Nat →
    Except String (Cond × Nat)
  | 0, _, _, _ => .error "RecursionError: maximum recursion depth exceeded"
  | Nat.succ _, .device dId attr op v dur, tmo, ctr =>
      .ok (.device dId attr op v dur tmo .none .none Option.none Option.none false ctr, ctr + 1)
  | Nat.succ fuel, .boolean op conds dur, tmo, ctr => do
      let (subs, ctr) ← buildSubs (conditionForModel fuel) conds [] ctr
      if op = "not" ∧ subs.length ≠ 1 then
        .error "ValueError: Boolean operator not requires exactly one subcondition"
      else
        .ok (.boolc op subs dur tmo Option.none Option.none false ctr, ctr + 1)
  | Nat.succ _, .timeOfDay op h m, _, ctr => .ok (mkTimeOfDay op h m ctr, ctr + 1)
  | Nat.succ _, .unknown desc, _, _ => .error ("ValueError: Unknown condition type: " ++ desc)

/-- State of the rule manager: the name index over (rule, compiled trigger),
the persisted rules file content, the shared process manager state and the
instance counter. -/
structure RMState where
  installedRules : List (String × RuleM × Cond)
  rulesFile : List RuleM
  rpm : RPMState
  instCtr : Nat

/-- install_rule: reject a duplicate name, compile the trigger into a
condition (raising ValueError for an unknown trigger variant before anything
is modified), attach the rule-triggered action, install it, index the rule
and rewrite the rules file.  Raising is embedded as an error result, which
leaves the caller holding the unmodified prior state, exactly as the source
raises before mutating anything. -/
def installRule (env : Env) (fuel : Nat) (rm : RMState) (rule : RuleM) :
    Except String RMState := do
  if (look rm.installedRules rule.name).isSome then
    .error ("ValueError: Rule with name " ++ rule.name ++ " is already installed")
  else
    match rule.trigger with
    | .unknown desc => .error ("ValueError: Unknown trigger type: " ++ desc)
    | trigger => do
        let (c, ctr) ← conditionForModel fuel trigger Option.none rm.instCtr
        let c := c.withAction (some (.ruleTriggered rule.name))
        let rpm ← addCondition env fuel c rm.rpm
        let installed := setk rm.installedRules rule.name (rule, c)
        .ok { installedRules := installed, rulesFile := installed.map (fun p => p.2.1),
              rpm := rpm, instCtr := ctr }

/-- uninstall_rule, returning the state as mutated when the method returned
or raised, paired with the exception it raised, if any.  An unknown name
returns immediately without touching anything.  A known name awaits the
synchronous remove_condition of the process manager: the removal executes in
full and the await of its None result raises TypeError, so the index entry
and the persisted rules file are never updated even though the trigger has
been removed from the process manager.  (Should the removal itself raise,
the embedding pairs the unmodified input with that error; no theorem below
relies on that branch.) -/
def uninstallRule (fuel : Nat) (rm : RMState) (ruleName : String) : RMState × Option String :=
  match look rm.installedRules ruleName with
  | Option.none => (rm, Option.none)
  | some (_, c) =>
      match removeCondition fuel c rm.rpm with
      | .ok rpm => ({ rm with rpm := rpm }, some awaitNoneTypeError)
      | .error e => (rm, some e)

/-- _handle_wait: without a predicate the condition is a TrueCondition built
directly on the timeout, otherwise the model is compiled with the timeout;
the trigger continuation (invoke the remaining actions) is attached as the
action and the timeout continuation (remaining actions, or Exit when
end_on_timeout) as the timeout action, and the condition is installed. -/
def handleWait (env : Env) (fuel : Nat) (condM : Option StateCondM) (timeout : Option Nat)
    (endOnTimeout : Bool) (ctr : Nat) (st : RPMState) : Except String (RPMState × Nat) := do
  let (c, ctr) ←
    match condM with
    | Option.none => Except.ok (mkTrueCondition timeout ctr, ctr + 1)
    | some m => conditionForModel fuel m timeout ctr
  let c := c.withAction (some .condTriggered)
  let c := c.withTimeoutAction (some (.condTimeout endOnTimeout))
  let st ← addCondition env fuel c st
  .ok (st, ctr)

/-- Scene setting model (scenes/model.py SceneSetting: a string device id, a
command, optional arguments and a check condition). -/
structure SceneSettingM where
  deviceId : String
  command : String
  arguments : List PVal
  check : StateCondM
deriving Repr

/-- Scene model. -/
structure SceneModel where
  name : String
  description : Option String
  settings : List SceneSettingM
deriving Repr

/-- The internal scene representation (scenes/manager.py class named with a
leading underscore and Scene).  Its Python class defines exactly the
properties model, set_trigger, unset_trigger and is_set. -/
structure SceneObj where
  model : SceneModel
  setTrigger : Cond
  unsetTrigger : Cond
  isSet : Bool

/-- Attribute lookup of settings on the internal scene object, as performed
by the loop head of set_scene.  The class defines only the properties
model, set_trigger, unset_trigger and is_set (scenes/manager.py lines
14 to 52) and no settings attribute, so the lookup raises AttributeError
unconditionally; the scene model held under the model property is where the
settings live. -/
def sceneGetSettings (_s : SceneObj) : Except String (List SceneSettingM) :=
  .error "AttributeError: _Scene object has no attribute settings"

/-- State of the scene manager: name index and persisted scenes file. -/
structure SMState where
  scenes : List (String × SceneObj)
  scenesFile : List SceneModel

/-- set_scene: index the internal scene by name (KeyError when absent), then
send the command of each of its settings to the hub adapter in order.  The
returned list is the command sequence sent.  The source reads the settings
from the attribute named settings on the internal scene object. -/
def setScene (sm : SMState) (sceneName : String) :
    Except String (List (String × String × List PVal)) := do
  let some sc := look sm.scenes sceneName | .error ("KeyError: " ++ sceneName)
  let settings ← sceneGetSettings sc
  .ok (settings.map (fun s => (s.deviceId, s.command, s.arguments)))

/-- create_scene: reject a duplicate name before anything else.  On a new
name the source builds the internal scene (an and combinator of the
per-setting checks as the set trigger and a not combinator wrapping it as
the unset trigger, the latter fed the already-built condition object back
through the declarative model constructor), wires the two flip handlers, and
then assigns set_trigger.trigger_always — but the base trigger_always
property defines no setter, so the assignment raises AttributeError before
the scene is indexed, before the scenes file is rewritten and before the set
trigger is installed: the non-duplicate path never completes.  Nothing is
mutated before either raise, so the error results leave the caller holding
the unchanged prior state. -/
def createScene (_env : Env) (fuel : Nat) (sm : SMState) (scene : SceneModel) (ctr : Nat)
    (_rpm : RPMState) : Except String (SMState × RPMState × Nat) := do
  if (look sm.scenes scene.name).isSome then
    .error ("ValueError: Scene " ++ scene.name ++ " already exists")
  else do
    let (setTrig, ctr) ←
      conditionForModel fuel (.boolean "and" (scene.settings.map (fun s => s.check))
        Option.none) Option.none ctr
    let setTrig := setTrig.withAction (some (.plain 0))
    let _unsetTrig := Cond.boolc "not" [(setTrig.identifier, setTrig, false)]
      Option.none Option.none (some (.plain 1)) Option.none false ctr
    .error "AttributeError: property trigger_always of Condition object has no setter"

/-- Calendar date as validated by the Python date type. -/
structure PyDate where
  year : Nat
  month : Nat
  day : Nat
deriving DecidableEq, Repr

def isLeapYear (y : Nat) : Bool :=
  y % 4 = 0 ∧ (y % 100 ≠ 0 ∨ y % 400 = 0)

def daysInMonth (y m : Nat) : Nat :=
  if m = 2 then (if isLeapYear y then 29 else 28)
  else if m = 4 ∨ m = 6 ∨ m = 9 ∨ m = 11 then 30
  else 31

/-- date.replace with a new day: Python validates the day against the month
and raises ValueError when it is out of range. -/
def PyDate.replaceDay (d : PyDate) (newDay : Nat) : Except String PyDate :=
  if 1 ≤ newDay ∧ newDay ≤ daysInMonth d.year d.month then .ok ⟨d.year, d.month, newDay⟩
  else .error "ValueError: day is out of range for month"

/-- Timestamp at second granularity, as compared inside the clock task. -/
structure PyDateTime where
  date : PyDate
  hour : Nat
  minute : Nat
  second : Nat
deriving DecidableEq, Repr

/-- datetime.combine of a date with a time of day (zero seconds). -/
def combineDT (d : PyDate) (t : TimeHM) : PyDateTime := ⟨d, t.hour, t.minute, 0⟩

def dateLt (a b : PyDate) : Bool :=
  a.year < b.year ∨ (a.year = b.year ∧
    (a.month < b.month ∨ (a.month = b.month ∧ a.day < b.day)))

def dtLt (a b : PyDateTime) : Bool :=
  dateLt a.date b.date ∨ (a.date = b.date ∧
    (a.hour < b.hour ∨ (a.hour = b.hour ∧
      (a.minute < b.minute ∨ (a.minute = b.minute ∧ a.second < b.second)))))

/-- The first-trigger computation of ClockService.start_clock: combine today
with the target time; if that instant is already past, combine the target
time with the date obtained by replacing the day number with its successor
(the source increments the day field directly rather than adding a one-day
timedelta). -/
def clockFirstTrigger (now : PyDateTime) (t : TimeHM) : Except String PyDateTime := do
  let next := combineDT now.date t
  if dtLt next now then do
    let d ← now.date.replaceDay (now.date.day + 1)
    .ok (combineDT d t)
  else .ok next

/-! Concrete fixtures used by the theorems below. -/

def hubInactive : Nat → String → PVal := fun _ _ => .str "inactive"

def hubOn : Nat → String → PVal := fun _ _ => .str "on"

def envInactiveAt (t : Nat) : Env := { hub := hubInactive, nowHM := ⟨12, 0⟩, nowAbs := t }

def envOnAt (t : Nat) : Env := { hub := hubOn, nowHM := ⟨12, 0⟩, nowAbs := t }

/-- A device condition observing attribute motion of device 5, operator is
equality with the string active, with a thirty-second duration and an
installed action. -/
def c1Cond : Cond :=
  .device 5 "motion" "=" (.str "active") (some 30) Option.none .none .none
    (some (.plain 7)) Option.none false 0

/-- The state after installing the condition while the hub reports motion
inactive (so the condition starts false). -/
def c1AfterInstall : Except String RPMState :=
  addCondition (envInactiveAt 0) 10 c1Cond RPMState.empty

/-- The state after the motion active event arrives at second 100 (the
rising edge). -/
def c1AfterEvent : Except String RPMState := do
  let st ← c1AfterInstall
  onDeviceEventRPM (envInactiveAt 100) 10 ⟨5, "motion", .str "active"⟩ st

/-- C1: a condition with duration 30 seconds and an action, installed false.
Its rising edge arrives at second 100.  The claim requires the action to be
invoked only once the condition has stayed true for thirty seconds, and in
particular not at the rising edge itself; the engine instead invokes the
action immediately at second 100 and leaves no duration timer pending (the
immediate-trigger branch of the action phase cancels the timer it had just
armed), so continuous truth is never awaited. -/
theorem c1_rising_edge_fires_action_despite_duration :
    c1Cond.durationProp = some 30
  ∧ (c1AfterInstall.map (fun st =>
      ((look st.conditions c1Cond.identifier).map (fun p => p.2),
        st.timers.map (fun p => p.1), st.log)))
      = .ok (some false, [], [])
  ∧ (c1AfterEvent.map (fun st => (st.log, st.timers.map (fun p => p.1))))
      = .ok ([.actionRun 7 c1Cond.identifier 100], []) :=
  ⟨rfl, rfl, rfl⟩

/-- A device condition with a duration that is true at install time (the hub
reports switch on). -/
def c2DurCond : Cond :=
  .device 6 "switch" "=" (.str "on") (some 45) Option.none .none .none
    (some (.plain 3)) Option.none false 0

/-- A trigger-always condition with an action, no duration, true at install
time. -/
def c2TACond : Cond :=
  .device 6 "switch" "=" (.str "on") Option.none Option.none .none .none
    (some (.plain 4)) Option.none true 1

/-- C2: installing an initially-true condition.  With a duration, the
duration timer is armed (first conjunct, as the claim states).  With
trigger_always set, no duration and an installed action, the claim requires
the action to be invoked during add_condition; but add_condition contains no
action invocation at all, so the log stays empty even though the condition
is recorded true (last conjuncts). -/
theorem c2_add_condition_never_invokes_action :
    (addCondition (envOnAt 0) 10 c2DurCond RPMState.empty).map
        (fun st => (st.timers.map (fun p => (p.1, p.2.1)), st.log))
      = .ok ([(timerDurName c2DurCond.identifier, 45)], [])
  ∧ c2TACond.triggerAlways = true
  ∧ c2TACond.action = some (.plain 4)
  ∧ c2TACond.durationProp = Option.none
  ∧ (addCondition (envOnAt 0) 10 c2TACond RPMState.empty).map
        (fun st => (st.log, (look st.conditions c2TACond.identifier).map (fun p => p.2),
          st.timers.map (fun p => p.1)))
      = .ok ([], some true, []) :=
  ⟨rfl, rfl, rfl, rfl, rfl⟩

/-- The state after a predicate-less Wait with a five-second timeout and
end_on_timeout set is handled over an empty process manager. -/
def c4AfterWait : Except String (RPMState × Nat) :=
  handleWait (envInactiveAt 0) 10 Option.none (some 5) true 0 RPMState.empty

/-- The state after the single pending timer expires at second 5, paired
with the exception the timer task died with. -/
def c4AfterFire : Except String (RPMState × Option String) :=
  c4AfterWait.map (fun p => fireTimer (envInactiveAt 5) 10 (timerDurName "true()#0") p.1)

/-- C4: a Wait with no predicate, timeout 5 and end_on_timeout.  The
TrueCondition reports the timeout as its duration and inherits timeout None,
so installation arms only a duration timer (no timeout timer), with the
trigger continuation as action and the exit-on-timeout continuation as
timeout action (third conjunct).  When the delay expires, the duration
handler invokes the trigger continuation, whose opening await of the
synchronous remove_condition removes the wait condition and then raises
TypeError, killing the timer task: the log stays empty — no remaining
actions are interpreted and no Exit is fired (last conjunct), although the
claim requires an Exit when end_on_timeout is set (and the trigger path
would be required to invoke the remaining actions).  The timeout action,
the only carrier of end_on_timeout, hangs off a timer that is never
armed. -/
theorem c4_pure_delay_wait_ignores_end_on_timeout :
    (mkTrueCondition (some 5) 0).timeoutProp = Option.none
  ∧ (mkTrueCondition (some 5) 0).durationProp = some 5
  ∧ (c4AfterWait.map (fun p =>
      (p.1.timers.map (fun q => (q.1, q.2.1)),
        (look p.1.conditions "true()#0").map (fun q => (q.2, q.1.action, q.1.timeoutAction)))))
      = .ok ([(timerDurName "true()#0", 5)],
          some (true, some .condTriggered, some (.condTimeout true)))
  ∧ (c4AfterFire.map (fun p =>
      (p.1.log, p.1.timers.map (fun q => q.1), p.1.conditions.length, p.2)))
      = .ok ([], [], 0, some awaitNoneTypeError) :=
  ⟨rfl, rfl, rfl, rfl⟩

def c5Sub : Cond :=
  .device 3 "switch" "=" (.str "on") Option.none Option.none .none .none
    Option.none Option.none false 0

def c5Set : Cond :=
  .boolc "and" [(c5Sub.identifier, c5Sub, false)] Option.none Option.none
    (some (.plain 0)) Option.none true 0

def c5Unset : Cond :=
  .boolc "not" [(c5Set.identifier, c5Set, false)] Option.none Option.none
    (some (.plain 1)) Option.none false 1

def c5Setting : SceneSettingM :=
  { deviceId := "3", command := "on", arguments := [],
    check := .device 3 "switch" "=" (.str "on") Option.none }

def c5Model : SceneModel :=
  { name := "movie", description := Option.none, settings := [c5Setting] }

def c5Obj : SceneObj :=
  { model := c5Model, setTrigger := c5Set, unsetTrigger := c5Unset, isSet := false }

def c5SM : SMState := { scenes := [("movie", c5Obj)], scenesFile := [c5Model] }

/-- C5: a scene named movie with one setting sits in the scene index.
set_scene is required to send that setting's command; instead its loop head
reads the attribute named settings from the internal scene object, which the
class does not define, so an AttributeError is raised and no command is sent
(first conjunct).  The settings live on the scene model one property away
(second conjunct). -/
theorem c5_set_scene_raises_attribute_error :
    setScene c5SM "movie" = .error "AttributeError: _Scene object has no attribute settings"
  ∧ (c5Obj.model.settings.map (fun s => (s.deviceId, s.command))) = [("3", "on")] :=
  ⟨rfl, rfl⟩

/-- C6: the first-fire computation of start_clock.  When the target time has
already passed, the source advances to the next day by replacing the day
number with day plus one; at the end of a month that day number does not
exist and date.replace raises ValueError (first conjunct, at January 31),
while on any earlier day of the month the computation yields the target
time on the following day (second conjunct) and a target still ahead stays
on the same day (third conjunct). -/
theorem c6_first_fire_month_end_value_error :
    clockFirstTrigger ⟨⟨2025, 1, 31⟩, 23, 0, 0⟩ ⟨8, 0⟩
      = .error "ValueError: day is out of range for month"
  ∧ clockFirstTrigger ⟨⟨2025, 1, 30⟩, 23, 0, 0⟩ ⟨8, 0⟩ = .ok ⟨⟨2025, 1, 31⟩, 8, 0, 0⟩
  ∧ clockFirstTrigger ⟨⟨2025, 1, 30⟩, 7, 0, 0⟩ ⟨8, 0⟩ = .ok ⟨⟨2025, 1, 30⟩, 8, 0, 0⟩ :=
  ⟨rfl, rfl, rfl⟩

/-- C7: the validation failures of rule and scene installation raise before
any state is touched.  A duplicate rule name and an unknown trigger variant
make install_rule raise ValueError, and a duplicate scene name makes
create_scene raise ValueError; in each case the error is produced before the
index, the process manager or the persisted file content are modified, which
the state-passing embedding renders as an error result that leaves the
caller holding the unchanged prior state. -/
theorem c7_validation_failures_raise_before_update :
    (∀ env fuel rm rule, (look rm.installedRules rule.name).isSome = true →
      installRule env fuel rm rule =
        .error ("ValueError: Rule with name " ++ rule.name ++ " is already installed"))
  ∧ (∀ env fuel rm rule desc, look rm.installedRules rule.name = Option.none →
      rule.trigger = .unknown desc →
      installRule env fuel rm rule = .error ("ValueError: Unknown trigger type: " ++ desc))
  ∧ (∀ env fuel sm scene ctr rpm, (look sm.scenes scene.name).isSome = true →
      createScene env fuel sm scene ctr rpm =
        .error ("ValueError: Scene " ++ scene.name ++ " already exists")) := by
  refine ⟨?_, ?_, ?_⟩
  · intro env fuel rm rule h
    simp [installRule, h]
  · intro env fuel rm rule desc h1 h2
    simp [installRule, h1, h2]
  · intro env fuel sm scene ctr rpm h
    simp [createScene, h]

def rmEmpty : RMState :=
  { installedRules := [], rulesFile := [], rpm := RPMState.empty, instCtr := 0 }

def c7Rule : RuleM :=
  { name := "lights", description := "d", trigger := .timeOfDay "is" 7 30, actions := [] }

def c7Rm : RMState :=
  { installedRules := [("lights", c7Rule, mkTrueCondition Option.none 9)],
    rulesFile := [c7Rule], rpm := RPMState.empty, instCtr := 0 }

def c7RuleU : RuleM :=
  { name := "other", description := "d", trigger := .unknown "FancyTrigger", actions := [] }

def c7SceneDup : SceneModel :=
  { name := "movie", description := Option.none, settings := [] }

theorem c7_validation_witness :
    (look c7Rm.installedRules c7Rule.name).isSome = true
  ∧ installRule (envInactiveAt 0) 5 c7Rm c7Rule
      = .error "ValueError: Rule with name lights is already installed"
  ∧ c7RuleU.trigger = .unknown "FancyTrigger"
  ∧ installRule (envInactiveAt 0) 5 rmEmpty c7RuleU
      = .error "ValueError: Unknown trigger type: FancyTrigger"
  ∧ createScene (envInactiveAt 0) 5 c5SM c7SceneDup 0 RPMState.empty
      = .error "ValueError: Scene movie already exists" :=
  ⟨rfl,
    c7_validation_failures_raise_before_update.1 (envInactiveAt 0) 5 c7Rm c7Rule rfl,
    rfl,
    c7_validation_failures_raise_before_update.2.1 (envInactiveAt 0) 5 rmEmpty c7RuleU
      "FancyTrigger" rfl rfl,
    c7_validation_failures_raise_before_update.2.2 (envInactiveAt 0) 5 c5SM c7SceneDup 0
      RPMState.empty rfl⟩

/-- The minute after a time of day as the claim words it: wrapping minute 59
into the next hour and hour 23 into hour 0. -/
def minuteAfter (t : TimeHM) : TimeHM :=
  ⟨(t.hour + (t.minute + 1) / 60) % 24, (t.minute + 1) % 60⟩

/-- C8: for a valid model time, the check times of a TimeOfDayStateCondition
with operator is are exactly the model time and the minute after it (with
the rollovers at minute 59 and hour 23); for operators before and after they
are exactly the model time; and evaluated one minute after the model time
the is condition is false again. -/
theorem c8_time_of_day_check_times (h m n : Nat) (hh : h < 24) (hm : m < 60) :
    (mkTimeOfDay "is" h m n).checkTimes = [⟨h, m⟩, minuteAfter ⟨h, m⟩]
  ∧ (mkTimeOfDay "before" h m n).checkTimes = [⟨h, m⟩]
  ∧ (mkTimeOfDay "after" h m n).checkTimes = [⟨h, m⟩]
  ∧ (mkTimeOfDay "is" h m n).evaluate (minuteAfter ⟨h, m⟩) = .ok false := by
  have hdm : minuteAfter ⟨h, m⟩ = if m = 59 then ⟨(h + 1) % 24, 0⟩ else ⟨h, m + 1⟩ := by
    unfold minuteAfter
    by_cases h59 : m = 59
    · subst h59; simp
    · have h1 : (m + 1) / 60 = 0 := by omega
      have h2 : (m + 1) % 60 = m + 1 := by omega
      have h3 : h % 24 = h := Nat.mod_eq_of_lt hh
      simp only [h1, h2, h3, Nat.add_zero, if_neg h59]
  refine ⟨?_, rfl, rfl, ?_⟩
  · show timeOfDayCheckTimes "is" h m = [⟨h, m⟩, minuteAfter ⟨h, m⟩]
    rw [hdm]
    unfold timeOfDayCheckTimes
    by_cases h59 : m = 59 <;> simp [h59]
  · have hne : minuteAfter ⟨h, m⟩ ≠ ⟨h, m⟩ := by
      rw [hdm]
      by_cases h59 : m = 59 <;> simp only [h59, if_pos, if_neg, ite_true, ite_false,
        ne_eq, TimeHM.mk.injEq, not_and] <;> omega
    show Except.ok (decide (minuteAfter ⟨h, m⟩ = TimeHM.mk h m)) = Except.ok false
    rw [decide_eq_false hne]

theorem c8_check_times_witness :
    (mkTimeOfDay "is" 23 59 0).checkTimes = [⟨23, 59⟩, minuteAfter ⟨23, 59⟩]
  ∧ (mkTimeOfDay "before" 23 59 0).checkTimes = [⟨23, 59⟩]
  ∧ (mkTimeOfDay "is" 23 59 0).evaluate (minuteAfter ⟨23, 59⟩) = .ok false :=
  ⟨(c8_time_of_day_check_times 23 59 0 (by decide) (by decide)).1,
    (c8_time_of_day_check_times 23 59 0 (by decide) (by decide)).2.1,
    (c8_time_of_day_check_times 23 59 0 (by decide) (by decide)).2.2.2⟩

/-- C9: check_condition_state raises KeyError for a condition that is not in
the installed-conditions table and returns the recorded truth value for an
installed one. -/
theorem c9_check_state_requires_installed (st : RPMState) (c : Cond) :
    (look st.conditions c.identifier = Option.none →
      checkConditionState st c = .error ("KeyError: " ++ c.identifier))
  ∧ ∀ c0 b, look st.conditions c.identifier = some (c0, b) →
      checkConditionState st c = .ok b := by
  constructor
  · intro h
    simp [checkConditionState, h]
  · intro c0 b h
    simp [checkConditionState, h]

def c9Cond : Cond := mkTrueCondition Option.none 3

def c9St : RPMState := {RPMState.empty with conditions := [(c9Cond.identifier, c9Cond, true)]}

theorem c9_check_state_witness :
    checkConditionState RPMState.empty c9Cond = .error ("KeyError: " ++ c9Cond.identifier)
  ∧ checkConditionState c9St c9Cond = .ok true :=
  ⟨(c9_check_state_requires_installed RPMState.empty c9Cond).1 rfl,
    (c9_check_state_requires_installed c9St c9Cond).2 c9Cond true rfl⟩

/-- C10: uninstalling a rule name that is not in the index returns without
raising and with the manager state (index, persisted file content and
process manager) unchanged: the result is the input state itself, with no
exception. -/
theorem c10_uninstall_unknown_rule_noop (fuel : Nat) (rm : RMState) (ruleName : String)
    (h : look rm.installedRules ruleName = Option.none) :
    uninstallRule fuel rm ruleName = (rm, Option.none) := by
  simp [uninstallRule, h]

theorem c10_uninstall_witness :
    look rmEmpty.installedRules "missing" = Option.none
  ∧ uninstallRule 5 rmEmpty "missing" = (rmEmpty, Option.none) :=
  ⟨rfl, c10_uninstall_unknown_rule_noop 5 rmEmpty "missing" rfl⟩

/-! Helper lemmas about the dictionary operations and about which parts of
the state each removal step touches, used for the removal theorems. -/

theorem exBind_ok {α β : Type} {e : Except String α} {f : α → Except String β} {b : β}
    (h : e >>= f = .ok b) : ∃ a, e = .ok a ∧ f a = .ok b := by
  cases e with
  | error s => simp [Bind.bind, Except.bind] at h
  | ok a => exact ⟨a, rfl, by simpa [Bind.bind, Except.bind] using h⟩

theorem look_none_erasek_eq {β : Type} {l : List (String × β)} {k : String}
    (h : look l k = Option.none) : erasek l k = l := by
  induction l with
  | nil => rfl
  | cons p rest ih =>
      obtain ⟨k0, v⟩ := p
      by_cases hk : k0 = k
      · simp [look, hk] at h
      · have h' : look rest k = Option.none := by simpa [look, hk] using h
        simp [erasek, hk] at ih ⊢
        exact ih h'

theorem look_erasek_self {β : Type} (l : List (String × β)) (k : String) :
    look (erasek l k) k = Option.none := by
  induction l with
  | nil => rfl
  | cons p rest ih =>
      obtain ⟨k0, v⟩ := p
      by_cases hk : k0 = k
      · simpa [erasek, hk] using ih
      · simpa [erasek, look, hk] using ih

theorem look_isSome_of_erasek {β : Type} {l : List (String × β)} {k k' : String}
    (h : (look (erasek l k) k').isSome = true) : (look l k').isSome = true := by
  induction l with
  | nil => simp [erasek, look] at h
  | cons p rest ih =>
      obtain ⟨k0, v⟩ := p
      by_cases hk' : k0 = k'
      · simp [look, hk']
      · by_cases hk : k0 = k
        · have h' : (look (erasek rest k) k').isSome = true := by
            simpa [erasek, hk] using h
          simpa [look, hk'] using ih h'
        · have h' : (look (erasek rest k) k').isSome = true := by
            simpa [erasek, look, hk, hk'] using h
          simpa [look, hk'] using ih h'

theorem cancelTimer_conditions (st : RPMState) (tid : String) :
    ((cancelTimer st tid).1).conditions = st.conditions := by
  unfold cancelTimer
  split <;> rfl

theorem cancelClock_conditions (st : RPMState) (cid : String) :
    ((cancelClock st cid).1).conditions = st.conditions := by
  unfold cancelClock
  split <;> rfl

theorem cancelClocksFor_conditions (cid : String) :
    ∀ (l : List TimeHM) (st : RPMState), (cancelClocksFor cid l st).conditions = st.conditions := by
  intro l
  induction l with
  | nil => intro st; rfl
  | cons t rest ih =>
      intro st
      show (cancelClocksFor cid rest ((cancelClock st (clockCheckName cid t)).1)).conditions = _
      rw [ih, cancelClock_conditions]

theorem delCondEntry_conditions (st : RPMState) (cid : String) :
    (delCondEntry st cid).conditions = erasek st.conditions cid := by
  unfold delCondEntry
  split
  · rfl
  · next hn =>
      have : look st.conditions cid = Option.none := by
        cases hx : look st.conditions cid with
        | none => rfl
        | some v => simp [hx] at hn
      exact (look_none_erasek_eq this).symm

theorem delDeps_conditions (st : RPMState) (cid : String) :
    (delDeps st cid).conditions = st.conditions := by
  unfold delDeps
  split <;> rfl

theorem removeTrackedAttr_conditions {cid : String} {d : Nat} {a : String} {st st' : RPMState}
    (h : removeTrackedAttr cid d a st = .ok st') : st'.conditions = st.conditions := by
  unfold removeTrackedAttr at h
  simp only [] at h
  repeat' split at h
  all_goals first
    | (injection h with h; subst h; rfl)
    | injection h

theorem removeAttrsGo_conditions {cid : String} {d : Nat} :
    ∀ (l : List String) (st st' : RPMState), removeAttrsGo cid d l st = .ok st' →
      st'.conditions = st.conditions := by
  intro l
  induction l with
  | nil =>
      intro st st' h
      unfold removeAttrsGo at h
      injection h with h
      subst h
      rfl
  | cons a rest ih =>
      intro st st' h
      unfold removeAttrsGo at h
      obtain ⟨st1, h1, h2⟩ := exBind_ok h
      rw [ih st1 st' h2, removeTrackedAttr_conditions h1]

theorem removeDevsGo_conditions {cid : String} :
    ∀ (l : List (Nat × List String)) (st st' : RPMState), removeDevsGo cid l st = .ok st' →
      st'.conditions = st.conditions := by
  intro l
  induction l with
  | nil =>
      intro st st' h
      unfold removeDevsGo at h
      injection h with h
      subst h
      rfl
  | cons p rest ih =>
      obtain ⟨d, attrs⟩ := p
      intro st st' h
      unfold removeDevsGo at h
      obtain ⟨st1, h1, h2⟩ := exBind_ok h
      rw [ih st1 st' h2, removeAttrsGo_conditions attrs st st1 h1]

theorem removeMain_conditions {c : Cond} {st st' : RPMState}
    (h : removeMain c st = .ok st') :
    st'.conditions = erasek st.conditions c.identifier := by
  unfold removeMain at h
  obtain ⟨st5, h5, hok⟩ := exBind_ok h
  injection hok with hok
  subst hok
  rw [delDeps_conditions, removeDevsGo_conditions _ _ _ h5, delCondEntry_conditions,
    cancelClocksFor_conditions, cancelTimer_conditions, cancelTimer_conditions]

/-- Monotonicity of the sub-condition removal loop: a condition installed
after the loop was already installed before it (removal never installs). -/
theorem removeSubs_subset {rc : Cond → RPMState → Except String RPMState}
    (hrc : ∀ sc st st', rc sc st = .ok st' → ∀ cid,
      (look st'.conditions cid).isSome = true → (look st.conditions cid).isSome = true) :
    ∀ (l : List (String × Cond × Bool)) (st st' : RPMState), removeSubs rc l st = .ok st' →
      ∀ cid, (look st'.conditions cid).isSome = true →
        (look st.conditions cid).isSome = true := by
  intro l
  induction l with
  | nil =>
      intro st st' h cid hl
      unfold removeSubs at h
      injection h with h
      subst h
      exact hl
  | cons p rest ih =>
      obtain ⟨k0, sc, b0⟩ := p
      intro st st' h cid hl
      unfold removeSubs at h
      simp only [] at h
      by_cases hin : (look st.conditions sc.identifier).isSome = true
      · rw [if_pos hin] at h
        obtain ⟨st1, h1, h2⟩ := exBind_ok h
        exact hrc sc st st1 h1 cid (ih st1 st' h2 cid hl)
      · rw [if_neg hin] at h
        obtain ⟨st1, h1, h2⟩ := exBind_ok h
        injection h1 with h1
        subst h1
        exact ih st st' h2 cid hl

/-- Monotonicity of remove_condition. -/
theorem removeCondition_subset :
    ∀ (fuel : Nat) (c : Cond) (st st' : RPMState), removeCondition fuel c st = .ok st' →
      ∀ cid, (look st'.conditions cid).isSome = true →
        (look st.conditions cid).isSome = true := by
  intro fuel
  induction fuel with
  | zero =>
      intro c st st' h
      exact absurd h (by simp [removeCondition])
  | succ fuel ih =>
      intro c st st' h cid hl
      unfold removeCondition at h
      obtain ⟨stM, hM, hS⟩ := exBind_ok h
      have h2 := removeSubs_subset (fun sc s s' hh => ih sc s s' hh) _ _ _ hS cid hl
      rw [removeMain_conditions hM] at h2
      exact look_isSome_of_erasek h2

/-- remove_condition uninstalls its own argument: the main teardown erases
the table entry and the recursive loop never installs anything. -/
theorem removeCondition_self_gone :
    ∀ (fuel : Nat) (c : Cond) (st st' : RPMState), removeCondition fuel c st = .ok st' →
      look st'.conditions c.identifier = Option.none := by
  intro fuel c st st' h
  cases fuel with
  | zero => exact absurd h (by simp [removeCondition])
  | succ fuel =>
      unfold removeCondition at h
      obtain ⟨stM, hM, hS⟩ := exBind_ok h
      have hnone : look stM.conditions c.identifier = Option.none := by
        rw [removeMain_conditions hM]
        exact look_erasek_self _ _
      cases hx : look st'.conditions c.identifier with
      | none => rfl
      | some v =>
          have hsome : (look st'.conditions c.identifier).isSome = true := by simp [hx]
          have := removeSubs_subset
            (fun sc s s' hh => removeCondition_subset fuel sc s s' hh) _ _ _ hS _ hsome
          simp [hnone] at this

/-- The sub-condition loop removes each listed sub-condition that is
installed when its turn comes, and leaves absent ones absent. -/
theorem removeSubs_removes {rc : Cond → RPMState → Except String RPMState}
    (hsub : ∀ sc st st', rc sc st = .ok st' → ∀ cid,
      (look st'.conditions cid).isSome = true → (look st.conditions cid).isSome = true)
    (hself : ∀ sc st st', rc sc st = .ok st' →
      look st'.conditions sc.identifier = Option.none) :
    ∀ (l : List (String × Cond × Bool)) (st st' : RPMState) (k : String) (s : Cond) (b : Bool),
      removeSubs rc l st = .ok st' → (k, s, b) ∈ l →
        look st'.conditions s.identifier = Option.none := by
  intro l
  induction l with
  | nil =>
      intro st st' k s b h hmem
      exact absurd hmem (List.not_mem_nil _)
  | cons p rest ih =>
      obtain ⟨k0, sc, b0⟩ := p
      intro st st' k s b h hmem
      unfold removeSubs at h
      simp only [] at h
      by_cases hin : (look st.conditions sc.identifier).isSome = true
      · rw [if_pos hin] at h
        obtain ⟨st1, h1, h2⟩ := exBind_ok h
        rcases List.mem_cons.mp hmem with heq | hrest
        · have hs : s = sc := by cases heq; rfl
          subst hs
          have hn := hself s st st1 h1
          cases hx : look st'.conditions s.identifier with
          | none => rfl
          | some v =>
              have hsome : (look st'.conditions s.identifier).isSome = true := by simp [hx]
              have := removeSubs_subset hsub rest st1 st' h2 _ hsome
              simp [hn] at this
        · exact ih st1 st' k s b h2 hrest
      · rw [if_neg hin] at h
        obtain ⟨st1, h1, h2⟩ := exBind_ok h
        injection h1 with h1
        subst h1
        rcases List.mem_cons.mp hmem with heq | hrest
        · have hs : s = sc := by cases heq; rfl
          subst hs
          have hn : look st.conditions s.identifier = Option.none := by
            cases hx : look st.conditions s.identifier with
            | none => rfl
            | some v => simp [hx] at hin
          cases hx : look st'.conditions s.identifier with
          | none => rfl
          | some v =>
              have hsome : (look st'.conditions s.identifier).isSome = true := by simp [hx]
              have := removeSubs_subset hsub rest st st' h2 _ hsome
              simp [hn] at this
        · exact ih st st' k s b h2 hrest

/-- C3 (amended): remove_condition recursively removes every sub-condition of
the removed condition that is installed, with no regard for other parents
still holding it; after removal no direct sub-condition remains installed. -/
theorem c3_remove_condition_removes_installed_subs
    (fuel : Nat) (c : Cond) (st st' : RPMState) (s : Cond)
    (h : removeCondition fuel c st = .ok st') (hmem : s ∈ c.conditionsConds) :
    look st'.conditions s.identifier = Option.none := by
  cases fuel with
  | zero => exact absurd h (by simp [removeCondition])
  | succ fuel =>
      unfold removeCondition at h
      obtain ⟨stM, hM, hS⟩ := exBind_ok h
      obtain ⟨⟨k, s', b⟩, hmem', heq⟩ := List.mem_map.mp hmem
      have hs : s' = s := heq
      subst hs
      exact removeSubs_removes
        (fun sc a a' hh => removeCondition_subset fuel sc a a' hh)
        (fun sc a a' hh => removeCondition_self_gone fuel sc a a' hh)
        c.subsList stM st' k s' b hS hmem'

/-- A shared sub-condition: a device condition observing switch of device
9. -/
def c3s : Cond :=
  .device 9 "switch" "=" (.str "on") Option.none Option.none .none .none
    Option.none Option.none false 0

/-- First parent: an and combinator over the shared sub-condition. -/
def c3p1 : Cond :=
  .boolc "and" [(c3s.identifier, c3s, false)] Option.none Option.none
    (some (.plain 1)) Option.none false 0

/-- Second parent: a structurally identical but distinct combinator holding
the same sub-condition object. -/
def c3p2 : Cond :=
  .boolc "and" [(c3s.identifier, c3s, false)] Option.none Option.none
    (some (.plain 2)) Option.none false 1

/-- Both parents installed (the shared sub-condition is installed once, by
the first parent). -/
def c3StBefore : Except String RPMState := do
  let st ← addCondition (envOnAt 0) 10 c3p1 RPMState.empty
  addCondition (envOnAt 0) 10 c3p2 st

/-- The first parent removed. -/
def c3StAfter : Except String RPMState := do
  let st ← c3StBefore
  removeCondition 10 c3p1 st

/-- C3 counterexample: the two parents share the sub-condition (it appears
among the sub-conditions of the second parent and is installed while both
parents are), yet removing the first parent uninstalls the shared
sub-condition even though the second parent is still installed and still
holds it — the claim that the sub-condition survives until all parents have
released it fails at this input. -/
theorem c3_shared_sub_removed_counterexample :
    c3s ∈ c3p2.conditionsConds
  ∧ (c3StBefore.map (fun st => ((look st.conditions c3s.identifier).isSome,
      (look st.conditions c3p2.identifier).isSome))) = .ok (true, true)
  ∧ (c3StAfter.map (fun st => ((look st.conditions c3s.identifier).isSome,
      (look st.conditions c3p2.identifier).isSome))) = .ok (false, true) :=
  ⟨List.Mem.head [], rfl, rfl⟩

def c3WSt : RPMState :=
  {RPMState.empty with conditions := [(c3p1.identifier, c3p1, true)]}

theorem c3_removes_installed_subs_witness :
    c3s ∈ c3p1.conditionsConds
  ∧ ∃ st', removeCondition 5 c3p1 c3WSt = .ok st'
      ∧ look st'.conditions c3s.identifier = Option.none :=
  ⟨List.Mem.head [],
    ⟨_, rfl, c3_remove_condition_removes_installed_subs 5 c3p1 c3WSt _ c3s rfl
      (List.Mem.head [])⟩⟩

end AIHome
